import Mathlib

/-!
Shallow embedding of the resume-ranking service (FastAPI + pandas + Gemini
backend).  Two variants of the service exist in the repository and both are
modelled: the modular one (`main.py` → `api/routes.py` → `api/helpers.py` →
`core/file_processor.py`, `core/aimodels.py`) and the legacy monolith
(`app.py`).

External collaborators (the PDF/DOCX parsing libraries, the generative-AI
backend, `json.loads`) are modelled as oracle inputs: each call site receives
the outcome the external component would produce (either a value or the
exception it raised), and the embedded code is the exact control flow the
Python source performs on that outcome.
-/

/-- Python exceptions that cross the boundaries modelled here.
`httpException` is `fastapi.HTTPException`; the others are ordinary
exceptions (not `HTTPException`), which matters because
`routes.rank_resumes` classifies gathered outcomes with
`isinstance(res, HTTPException)`. -/
inductive PyExc where
  | httpException (status_code : Nat) (detail : String)
  | valueError (msg : String)
  | jsonDecodeError (msg : String)
  | backendError (msg : String)
  | keyError (key : String)
  | typeError (msg : String)
deriving DecidableEq

deriving instance DecidableEq for Except

/-- Structured failure dictionary `{"status_code": c, "error": msg}` returned
by `core/file_processor.py` and `core/aimodels.py`. -/
structure ErrDict where
  status_code : Nat
  error : String
deriving DecidableEq

/-- A successful scoring result: the dict parsed from the backend response,
with the reserved `Candidate Name` entry and one integer score per
requirement key (`src/api/helpers.py` trusts this shape as returned). -/
structure ScoreRecord where
  candidateName : String
  scores : List (String × Int)
deriving DecidableEq

/- ---------------------------------------------------------------------
Python string primitives used by the source (`str.strip`, `str.lstrip`
with a character set, `str.split('\n')`, substring `in`).
--------------------------------------------------------------------- -/

/-- Characters `str.strip()` removes in Python. -/
def pyWs (c : Char) : Bool :=
  c = ' ' || c = '\t' || c = '\n' || c = '\r' || c = '\x0b' || c = '\x0c'

/-- Python `s.strip()`. -/
def pyStrip (s : String) : String :=
  String.mk (((s.data.dropWhile pyWs).reverse.dropWhile pyWs).reverse)

/-- Python `s.lstrip(chars)`: drop leading characters belonging to the set. -/
def pyLstrip (chars : List Char) (s : String) : String :=
  String.mk (s.data.dropWhile (fun c => chars.contains c))

/-- Python `s.rstrip(chars)`: drop trailing characters belonging to the set. -/
def pyRstrip (chars : List Char) (s : String) : String :=
  String.mk ((s.data.reverse.dropWhile (fun c => chars.contains c)).reverse)

/-- Character set of the Python literal passed to `lstrip` at the
`.lstrip('` ``` `json')` call sites. -/
def jsonFence : List Char := "```json".data

/-- Character set of the Python literal passed to `rstrip` at the
`.rstrip('` ``` `')` call sites. -/
def tickSet : List Char := "```".data

/-- Python `s.split('\n')` on the character list. -/
def splitNl : List Char → List String
  | [] => [""]
  | c :: cs =>
    let rest := splitNl cs
    if c = '\n' then "" :: rest
    else
      match rest with
      | [] => [String.mk [c]]
      | r :: rs => String.mk (c :: r.data) :: rs

/-- Python `s.split('\n')`. -/
def pySplitNewline (s : String) : List String := splitNl s.data

/-- Helper for substring search: does `hay` start with `needle`? -/
def startsWithL : List Char → List Char → Bool
  | [], _ => true
  | _ :: _, [] => false
  | a :: as, b :: bs => a = b && startsWithL as bs

/-- Helper for substring search over character lists. -/
def containsSub (needle : List Char) : List Char → Bool
  | [] => startsWithL needle []
  | c :: cs => startsWithL needle (c :: cs) || containsSub needle cs

/-- Python `needle in hay` on strings (substring containment). -/
def pyIn (needle hay : String) : Bool := containsSub needle.data hay.data

/- ---------------------------------------------------------------------
Document extractor (`src/core/file_processor.py`).
--------------------------------------------------------------------- -/

/-- Outcome of `PyPDF2.PdfReader` on a payload (external library, oracle):
either the per-page `extract_text()` results (`none` models a page whose
`extract_text()` returned `None`), a `PyPDF2.errors.PdfReadError`, or some
other exception. -/
inductive PdfParseResult where
  | pages (texts : List (Option String))
  | readError
  | otherError (msg : String)
deriving DecidableEq

/-- Outcome of `docx.Document` on a payload (external library, oracle):
paragraph texts, the library's package/parse failure, or another
exception. -/
inductive DocxParseResult where
  | paragraphs (texts : List String)
  | packageNotFound
  | otherError (msg : String)
deriving DecidableEq

/-- Return value of the `extract_text` methods: either the extracted text or
the structured error dictionary they build. -/
inductive ExtractOutcome where
  | text (s : String)
  | err (e : ErrDict)
deriving DecidableEq

/-- `PdfDoc.extract_text` (`file_processor.py`): zero pages gives the
"no readable text" dict, `PdfReadError` gives the "invalid structure" dict,
any other exception is wrapped; otherwise pages are joined with `"\n"`,
substituting `""` for pages whose `extract_text()` returned `None`. -/
def PdfDoc.extract_text (parse : PdfParseResult) : ExtractOutcome :=
  match parse with
  | .pages texts =>
    if texts.isEmpty then .err ⟨422, "PDF contains no readable text"⟩
    else .text (String.intercalate "\n" (texts.map (fun t => t.getD "")))
  | .readError => .err ⟨422, "Invalid PDF structure - unable to read file"⟩
  | .otherError m => .err ⟨422, "PDF processing error: " ++ m⟩

/-- `DocxDoc.extract_text` (`file_processor.py`): zero paragraphs gives the
"no readable text" dict, the library's parse failure gives the corrupted
dict, any other exception is wrapped; otherwise paragraphs are joined with
single spaces. -/
def DocxDoc.extract_text (parse : DocxParseResult) : ExtractOutcome :=
  match parse with
  | .paragraphs ps =>
    if ps.isEmpty then .err ⟨422, "DOCX contains no readable text"⟩
    else .text (String.intercalate " " ps)
  | .packageNotFound => .err ⟨422, "Invalid DOCX file - corrupted or empty"⟩
  | .otherError m => .err ⟨422, "DOCX processing error: " ++ m⟩

/-- An uploaded file: declared metadata plus the oracle outcomes the two
parsing libraries would produce on its payload. -/
structure UploadedDoc where
  filename : String
  content_type : String
  size : Nat
  pdfParse : PdfParseResult
  docxParse : DocxParseResult
deriving DecidableEq

/-- Declared media type for PDF. -/
def ctPdf : String := "application/pdf"

/-- Declared media type for DOCX. -/
def ctDocx : String :=
  "application/vnd.openxmlformats-officedocument.wordprocessingml.document"

/-- `BaseDoc.validate_size` (`file_processor.py`): raises
`ValueError("File size exceeds 5MB limit")` when the payload exceeds
`5 * 1024 * 1024` bytes. -/
def validate_size (n : Nat) : Except PyExc Unit :=
  if n > 5 * 1024 * 1024 then .error (.valueError "File size exceeds 5MB limit")
  else .ok ()

/-- `DocProcessor.process` (`file_processor.py`), instrumented: the second
component records whether a parsing library (`PyPDF2.PdfReader` /
`docx.Document`) was invoked on the payload.  `BaseDoc.from_upload` runs
`validate_size` inside `BaseDoc.__init__` before any type dispatch, and its
`ValueError` propagates uncaught out of `process`. -/
def DocProcessor.processT (f : UploadedDoc) : Except PyExc ExtractOutcome × Bool :=
  match validate_size f.size with
  | .error e => (.error e, false)
  | .ok _ =>
    if f.content_type = ctPdf then (.ok (PdfDoc.extract_text f.pdfParse), true)
    else if f.content_type = ctDocx then (.ok (DocxDoc.extract_text f.docxParse), true)
    else (.ok (.err ⟨422, "Unsupported file type. Upload PDF or DOCX."⟩), false)

/-- `DocProcessor.process` (`file_processor.py`), result only. -/
def DocProcessor.process (f : UploadedDoc) : Except PyExc ExtractOutcome :=
  (DocProcessor.processT f).1

/- ---------------------------------------------------------------------
AI backend components (`src/core/aimodels.py`).  The generative backend is
an oracle: `Except.ok t` is a response with text `t`, `Except.error m` is a
call that raised an exception whose message is `m`.
--------------------------------------------------------------------- -/

/-- Return value of `models.extract_criteria`: the success dict
`{"requirements": ..., "code": 200}` or an error dict. -/
inductive CriteriaResult where
  | ok (requirements : List String)
  | err (e : ErrDict)
deriving DecidableEq

/-- `models.extract_criteria` (`aimodels.py`): the whole body runs in one
`try`.  A backend exception becomes the 500 "Extraction failed" dict; a
response whose stripped text equals the `INVALID_INPUT` sentinel becomes the
400 dict; otherwise the stripped text is split at newlines into the
requirement list. -/
def models.extract_criteria (backend : Except String String) : CriteriaResult :=
  match backend with
  | .error e => .err ⟨500, "Extraction failed: " ++ e⟩
  | .ok text =>
    if pyStrip text = "INVALID_INPUT" then
      .err ⟨400, "Not a valid Job Description"⟩
    else
      .ok (pySplitNewline (pyStrip text))

/-- Return value of `models.rank_resumes` when the call itself does not
raise: the sentinel error dict or the success dict carrying the
fence-stripped response text. -/
inductive RankResult where
  | ok (response : String)
  | err (e : ErrDict)
deriving DecidableEq

/-- `models.rank_resumes` (`aimodels.py`): unlike `extract_criteria`, the
backend call is NOT wrapped in `try`/`except`, so a backend exception
propagates raw out of the method.  If `"NOT_VALID"` occurs in the stripped
response the sentinel 400 dict is returned; otherwise the dict carries
`text.lstrip('` ``` `json').rstrip('` ``` `')`. -/
def models.rank_resumes (backend : Except String String) : Except PyExc RankResult :=
  match backend with
  | .error e => .error (.backendError e)
  | .ok text =>
    if pyIn "NOT_VALID" (pyStrip text) then
      .ok (.err ⟨400, "Not a valid Resume or Job Requirements"⟩)
    else
      .ok (.ok (pyRstrip tickSet (pyLstrip jsonFence text)))

/- ---------------------------------------------------------------------
Per-resume pipeline (`src/api/helpers.py`, `process_resume`).
--------------------------------------------------------------------- -/

/-- A resume upload: the document plus the oracle outcome of the scoring
backend call made for it. -/
structure Resume where
  doc : UploadedDoc
  scoreBackend : Except String String
deriving DecidableEq

/-- `process_resume` (`helpers.py`).  Faithful control flow:
`if "error" in text` is a dict-key test when extraction failed but a
SUBSTRING test when `text` is the extracted string, in which case
`text["error"]` (evaluated inside the branch) raises `TypeError`; the
extraction error dict is re-raised as `HTTPException`; `models.rank_resumes`
exceptions propagate; the sentinel dict is re-raised as `HTTPException`;
finally `json.loads(result['response'])` runs with no handler, so a parse
failure propagates as a raw `json.JSONDecodeError`.  `jp` is the
`json.loads` oracle. -/
def process_resume (jp : String → Except String ScoreRecord) (req : String)
    (r : Resume) : Except PyExc ScoreRecord :=
  match DocProcessor.process r.doc with
  | .error e => .error e
  | .ok (.err e) => .error (.httpException e.status_code e.error)
  | .ok (.text t) =>
    if pyIn "error" t then .error (.typeError "string indices must be integers")
    else
      match models.rank_resumes r.scoreBackend with
      | .error exc => .error exc
      | .ok (.err e) => .error (.httpException e.status_code e.error)
      | .ok (.ok resp) =>
        match jp resp with
        | .error m => .error (.jsonDecodeError m)
        | .ok rec => .ok rec

/- ---------------------------------------------------------------------
Pandas fragment used by the report builders: `pd.DataFrame(list-of-dicts)`,
`df.rename(columns=...)`, `df.drop(col, axis=1)`, `.sum(axis=1)`, and the
appended `Total Score` column.  A data frame is a list of rows, each row an
ordered list of (column label, cell) pairs.
--------------------------------------------------------------------- -/

/-- A spreadsheet cell: the string-valued `Candidate Name` entry or an
integer score. -/
inductive Cell where
  | str (s : String)
  | int (n : Int)
deriving DecidableEq

/-- A data-frame row as the list of (column label, cell) pairs, in the key
order of the dict it came from. -/
abbrev Row := List (String × Cell)

/-- The row `pd.DataFrame` builds from one score dict: the `Candidate Name`
entry first, then the requirement scores in key order. -/
def ScoreRecord.toRow (r : ScoreRecord) : Row :=
  ("Candidate Name", Cell.str r.candidateName)
    :: r.scores.map (fun p => (p.1, Cell.int p.2))

/-- Concatenated column labels of all rows, in row order. -/
def catKeys : List Row → List String
  | [] => []
  | row :: rest => row.map Prod.fst ++ catKeys rest

/-- `df.columns` as a set of labels.  (Only membership and the argument
handed to the label-shortener oracle depend on this; pandas' first-seen
ordering is not otherwise relied on.) -/
def dfColumns (df : List Row) : List String := (catKeys df).dedup

/-- `df.rename(columns=colmap)`: relabel every column.  `colmap` is the
shortener's dict as a total function, identity on labels missing from the
dict (pandas ignores unknown keys). -/
def rowRename (colmap : String → String) (row : Row) : Row :=
  row.map (fun p => (colmap p.1, p.2))

/-- `df.drop(c, axis=1)`: raises `KeyError(c)` when `c` is not a column of
the frame (this is exactly what happens on the empty frame built from zero
successful resumes); otherwise removes every column labelled `c`. -/
def dfDropCol (c : String) (df : List Row) : Except PyExc (List Row) :=
  if c ∈ dfColumns df then
    .ok (df.map (fun row => row.filter (fun p => !(p.1 == c))))
  else .error (.keyError c)

/-- Is a cell numeric? -/
def cellIsInt : Cell → Bool
  | .int _ => true
  | .str _ => false

/-- Numeric value of a cell (unused on string cells, which `rowSum`
rejects first). -/
def cellVal : Cell → Int
  | .int n => n
  | .str _ => 0

/-- One row of `.sum(axis=1)`: adding a leftover string cell to integers
raises `TypeError` in pandas; otherwise the integer cells are summed. -/
def rowSum (row : Row) : Except PyExc Int :=
  if row.all (fun p => cellIsInt p.2) then
    .ok (row.foldl (fun a p => a + cellVal p.2) 0)
  else .error (.typeError "unsupported operand type for +")

/-- Effectful map over a list in order, stopping at the first raised
exception (the row-by-row reading of the vectorized pandas ops). -/
def mapE (f : α → Except PyExc β) : List α → Except PyExc (List β)
  | [] => .ok []
  | a :: as =>
    match f a with
    | .error e => .error e
    | .ok b =>
      match mapE f as with
      | .error e => .error e
      | .ok bs => .ok (b :: bs)

/-- `generate_excel` (`helpers.py`): build the frame from the score dicts,
fetch the label map from `shorten_requirements(list(df.columns))` (the
backend + `json.loads` step, taken as an oracle returning the parsed dict),
rename the columns, then set `df['Total Score'] =
df.drop('Candidate Name', axis=1).sum(axis=1)` and serialize.  The rows of
the written sheet are returned. -/
def generate_excel (shorten : List String → String → String)
    (results : List ScoreRecord) : Except PyExc (List Row) :=
  let df := results.map ScoreRecord.toRow
  let colmap := shorten (dfColumns df)
  let df2 := df.map (rowRename colmap)
  match dfDropCol "Candidate Name" df2 with
  | .error e => .error e
  | .ok dropped =>
    match mapE rowSum dropped with
    | .error e => .error e
    | .ok totals =>
      .ok (List.zipWith (fun row t => row ++ [("Total Score", Cell.int t)]) df2 totals)

/- ---------------------------------------------------------------------
Ranking orchestrator (`src/api/routes.py`, `rank_resumes`).
--------------------------------------------------------------------- -/

/-- An element appended to `final_results` by the fan-in loop: either a
parsed score dict, or — because `asyncio.gather(..., return_exceptions=True)`
hands back raised exceptions as values and the loop only diverts
`isinstance(res, HTTPException)` into `errors` — a non-`HTTPException`
exception object. -/
inductive Collected where
  | record (r : ScoreRecord)
  | exn (e : PyExc)
deriving DecidableEq

/-- One iteration of the fan-in loop of `routes.rank_resumes`: an
`HTTPException` outcome goes to `errors` (as its detail string); every other
outcome — a successful dict AND a raw non-HTTP exception alike — goes to
`final_results`. -/
def classifyItem (r : Except PyExc ScoreRecord)
    (acc : List Collected × List String) : List Collected × List String :=
  match r with
  | .ok v => (.record v :: acc.1, acc.2)
  | .error (.httpException _ d) => (acc.1, d :: acc.2)
  | .error e => (.exn e :: acc.1, acc.2)

/-- The fan-in loop of `routes.rank_resumes` over all gathered outcomes, in
order (`asyncio.gather` returns results in the order the tasks were
submitted). -/
def classify : List (Except PyExc ScoreRecord) → List Collected × List String
  | [] => ([], [])
  | r :: rest => classifyItem r (classify rest)

/-- The per-resume pipeline outcomes, in upload order (`asyncio.gather`
preserves the order of the submitted tasks). -/
def pipelineOuts (jp : String → Except String ScoreRecord) (req : String)
    (resumes : List Resume) : List (Except PyExc ScoreRecord) :=
  resumes.map (process_resume jp req)

/-- The successful `ScoreRecord`s among a list of pipeline outcomes, in
order. -/
def successRecords (l : List (Except PyExc ScoreRecord)) : List ScoreRecord :=
  l.filterMap (fun o => match o with | .ok r => some r | .error _ => none)

/-- Collected items that are genuine records. -/
def recordsOf : List Collected → Option (List ScoreRecord)
  | [] => some []
  | .record r :: rest => (recordsOf rest).map (fun l => r :: l)
  | .exn _ :: _ => none

/-- `routes.rank_resumes` (`routes.py`): fan out `process_resume` over the
uploads, classify the gathered outcomes, and hand `final_results` to
`generate_excel`.  There is no empty-results check in this handler.  When a
raw (non-HTTP) exception object has leaked into `final_results`,
`pd.DataFrame` is applied to a list that mixes dicts with exception
objects; that pandas behaviour is outside this model and is represented by
an opaque error — no theorem below depends on that branch. -/
def routes_rank_resumes (shorten : List String → String → String)
    (jp : String → Except String ScoreRecord) (req : String)
    (resumes : List Resume) : Except PyExc (List Row) :=
  let fr := (classify (pipelineOuts jp req resumes)).1
  match recordsOf fr with
  | some recs => generate_excel shorten recs
  | none => .error (.typeError "DataFrame rows of mixed dict and exception objects")

/- ---------------------------------------------------------------------
Criteria-extraction endpoint (`src/api/routes.py`, `extract_criteria`).
--------------------------------------------------------------------- -/

/-- Response model of the extraction endpoint (`data/Schemas.py`). -/
structure CriteriaResponse where
  status_code : Nat
  criteria : List String
deriving DecidableEq

/-- `routes.extract_criteria` (`routes.py`): extract text (a raised
`ValueError` from the size check propagates), re-raise extraction error
dicts as `HTTPException`; as in `process_resume`, `if "error" in text` is a
substring test on extracted text and leads to `text["status_code"]`, a
`TypeError`, when it hits; then map the criteria-extractor dict to the
response or an `HTTPException`.  `bk` is the generative-backend oracle for
this request. -/
def routes_extract_criteria (bk : Except String String) (f : UploadedDoc) :
    Except PyExc CriteriaResponse :=
  match DocProcessor.process f with
  | .error e => .error e
  | .ok (.err e) => .error (.httpException e.status_code e.error)
  | .ok (.text t) =>
    if pyIn "error" t then .error (.typeError "string indices must be integers")
    else
      match models.extract_criteria bk with
      | .err e => .error (.httpException e.status_code e.error)
      | .ok reqs => .ok ⟨200, reqs⟩

/- ---------------------------------------------------------------------
Legacy monolith (`src/app.py`).
--------------------------------------------------------------------- -/

/-- Python `str()` of a FastAPI `HTTPException` (Starlette renders it as
`"{status_code}: {detail}"`). -/
def strHTTP (code : Nat) (detail : String) : String :=
  toString code ++ ": " ++ detail

/-- `extract_text_from_pdf` (`app.py`): zero pages raises
`ValueError("PDF contains no readable text")`, which the generic
`except Exception` wraps into the 422 "PDF processing error" HTTPException;
a `PdfReadError` maps to the 422 "Invalid PDF structure" HTTPException
(modelled on the source's intent that `PyPDF2.PdfReadError` names the
library's read error); other exceptions are wrapped generically. -/
def app_extract_text_from_pdf (parse : PdfParseResult) : Except PyExc String :=
  match parse with
  | .pages texts =>
    if texts.isEmpty then
      .error (.httpException 422 ("PDF processing error: " ++ "PDF contains no readable text"))
    else .ok (String.intercalate "\n" (texts.map (fun t => t.getD "")))
  | .readError => .error (.httpException 422 "Invalid PDF structure - unable to read file")
  | .otherError m => .error (.httpException 422 ("PDF processing error: " ++ m))

/-- `extract_text_from_docx` (`app.py`): zero paragraphs raises
`ValueError("DOCX contains no readable text")`, wrapped by the generic
handler; `PackageNotFoundError` maps to the 422 "Invalid DOCX file"
HTTPException; other exceptions are wrapped generically. -/
def app_extract_text_from_docx (parse : DocxParseResult) : Except PyExc String :=
  match parse with
  | .paragraphs ps =>
    if ps.isEmpty then
      .error (.httpException 422 ("DOCX processing error: " ++ "DOCX contains no readable text"))
    else .ok (String.intercalate " " ps)
  | .packageNotFound => .error (.httpException 422 "Invalid DOCX file - corrupted or empty")
  | .otherError m => .error (.httpException 422 ("DOCX processing error: " ++ m))

/-- `score_resume_with_gemini` (`app.py`): a backend exception is wrapped by
the outer handler into the 500 "Resume scoring error" HTTPException.  On a
response, the fences are stripped and `json.loads` runs; `JSONDecodeError`
triggers the inner `raise HTTPException(500, "Invalid JSON response from
Gemini.")`, which the OUTER `except Exception` catches again (HTTPException
is an Exception) and re-wraps as `"Resume scoring error: " + str(e)`. -/
def score_resume_with_gemini (jp : String → Except String ScoreRecord)
    (backend : Except String String) : Except PyExc ScoreRecord :=
  match backend with
  | .error e => .error (.httpException 500 ("Resume scoring error: " ++ e))
  | .ok text =>
    match jp (pyRstrip tickSet (pyLstrip jsonFence text)) with
    | .ok r => .ok r
    | .error _ =>
      .error (.httpException 500
        ("Resume scoring error: " ++ strHTTP 500 "Invalid JSON response from Gemini."))

/-- A resume upload as seen by the monolith's handler. -/
structure AppResume where
  content_type : String
  pdfParse : PdfParseResult
  docxParse : DocxParseResult
  scoreBackend : Except String String
deriving DecidableEq

/-- The sequential loop of `app.rank_resumes`: unsupported content types are
skipped with `continue`; any exception raised while extracting or scoring a
resume aborts the whole request (no gather here). -/
def appLoop (jp : String → Except String ScoreRecord) :
    List AppResume → Except PyExc (List ScoreRecord)
  | [] => .ok []
  | r :: rest =>
    if r.content_type = ctPdf ∨ r.content_type = ctDocx then
      match (if r.content_type = ctPdf
             then app_extract_text_from_pdf r.pdfParse
             else app_extract_text_from_docx r.docxParse) with
      | .error e => .error e
      | .ok _text =>
        match score_resume_with_gemini jp r.scoreBackend with
        | .error e => .error e
        | .ok rec =>
          match appLoop jp rest with
          | .error e => .error e
          | .ok recs => .ok (rec :: recs)
    else appLoop jp rest

/-- `app.rank_resumes` (`app.py`): after the 50-file cap and the loop, the
frame is built and `df['Total Score'] = df.drop('Candidate Name',
axis=1).sum(axis=1)` runs BEFORE the `if not results` check — so with zero
collected results `df.drop` raises `KeyError('Candidate Name')` and the
`HTTPException(400, "No resumes processed successfully.")` line is never
reached. -/
def app_rank_resumes (jp : String → Except String ScoreRecord)
    (resumes : List AppResume) : Except PyExc (List Row) :=
  if resumes.length > 50 then
    .error (.httpException 400 "Maximum of 50 resumes allowed per request")
  else
    match appLoop jp resumes with
    | .error e => .error e
    | .ok results =>
      let df := results.map ScoreRecord.toRow
      match dfDropCol "Candidate Name" df with
      | .error e => .error e
      | .ok dropped =>
        match mapE rowSum dropped with
        | .error e => .error e
        | .ok totals =>
          let rows := List.zipWith (fun row t => row ++ [("Total Score", Cell.int t)]) df totals
          if results.isEmpty then
            .error (.httpException 400 "No resumes processed successfully.")
          else .ok rows

/- ---------------------------------------------------------------------
Statement-side definitions: the shapes the claims predict, written against
the embedded code above.
--------------------------------------------------------------------- -/

/-- Sum of a record's requirement scores (every entry except
`Candidate Name`). -/
def scoreSum (r : ScoreRecord) : Int :=
  r.scores.foldl (fun a p => a + p.2) 0

/-- The renamed score cells of a record. -/
def renScores (colmap : String → String) (r : ScoreRecord) : Row :=
  r.scores.map (fun p => (colmap p.1, Cell.int p.2))

/-- The spreadsheet row the claims predict for one succeeding resume: name
cell, relabelled score cells, and a `Total Score` cell holding the sum of
that row's requirement scores. -/
def specRow (colmap : String → String) (r : ScoreRecord) : Row :=
  ("Candidate Name", Cell.str r.candidateName)
    :: (renScores colmap r ++ [("Total Score", Cell.int (scoreSum r))])

/-- The label map `generate_excel` obtains for a given batch of successful
records. -/
def batchColmap (shorten : List String → String → String)
    (recs : List ScoreRecord) : String → String :=
  shorten (dfColumns (recs.map ScoreRecord.toRow))

/-- Is a pipeline outcome structured in the system's own error model —
either a parsed record or a raised `HTTPException`? -/
def isStructured : Except PyExc ScoreRecord → Bool
  | .ok _ => true
  | .error (.httpException _ _) => true
  | .error _ => false

/-- The failure details of the `HTTPException` outcomes, in order. -/
def httpDetails (l : List (Except PyExc ScoreRecord)) : List String :=
  l.filterMap (fun o => match o with
    | .error (.httpException _ d) => some d
    | _ => none)

/-- Number of newline characters in a character list. -/
def countNlL : List Char → Nat
  | [] => 0
  | c :: cs => (if c = '\n' then 1 else 0) + countNlL cs

/-- Number of newline characters in a string. -/
def countNl (s : String) : Nat := countNlL s.data

/- ---------------------------------------------------------------------
Concrete inputs used by witnesses and counterexamples.
--------------------------------------------------------------------- -/

/-- A well-formed small PDF upload whose payload parses to one page reading
`"hello world"`. -/
def wdoc : UploadedDoc :=
  ⟨"resume1.pdf", "application/pdf", 2048, .pages [some "hello world"], .paragraphs []⟩

/-- A `json.loads` oracle for the scoring response `"RESP"`. -/
def wjp : String → Except String ScoreRecord :=
  fun s => if s = "RESP" then
    .ok ⟨"Alice", [("Python", 4), ("Degree", 3)]⟩
  else .error "Expecting value: line 1 column 1 (char 0)"

/-- A shortener oracle returning the identity relabelling. -/
def wshorten : List String → String → String := fun _ s => s

/-- A resume whose pipeline succeeds end to end. -/
def wresume : Resume := ⟨wdoc, .ok "RESP"⟩

/-- A resume whose scoring backend call raises. -/
def wresumeFail : Resume := ⟨wdoc, .error "backend unavailable"⟩

/-- A resume whose scoring backend answers with unparseable text. -/
def wresumeBadJson : Resume := ⟨wdoc, .ok "not json"⟩

/-- An upload with an unsupported declared content type (small). -/
def wdocTxt : UploadedDoc :=
  ⟨"a.txt", "text/plain", 100, .pages [some "x"], .paragraphs ["x"]⟩

/-- A resume upload with unsupported content type. -/
def wresumeTxt : Resume := ⟨wdocTxt, .ok "RESP"⟩

/-- An oversized PDF upload (one byte over the 5 MB limit). -/
def bigPdfDoc : UploadedDoc :=
  ⟨"big.pdf", "application/pdf", 5 * 1024 * 1024 + 1, .pages [some "x"], .paragraphs ["x"]⟩

/-- An oversized upload with an unsupported declared content type. -/
def bigTxtDoc : UploadedDoc :=
  ⟨"big.txt", "text/plain", 5 * 1024 * 1024 + 1, .pages [some "x"], .paragraphs ["x"]⟩

/-- A monolith upload with unsupported content type (skipped by the loop). -/
def wappResumeTxt : AppResume := ⟨"text/plain", .pages [some "x"], .paragraphs ["x"], .ok "RESP"⟩

/- ---------------------------------------------------------------------
Helper lemmas.
--------------------------------------------------------------------- -/

theorem mapE_ok {α β : Type} (f : α → Except PyExc β) (g : α → β) :
    ∀ l : List α, (∀ a ∈ l, f a = .ok (g a)) → mapE f l = .ok (l.map g) := by
  intro l
  induction l with
  | nil => intro _; rfl
  | cons a as ih =>
    intro h
    simp only [mapE, h a (List.mem_cons_self a as),
      ih (fun x hx => h x (List.mem_cons_of_mem _ hx)), List.map_cons]

theorem mapE_map {α β γ : Type} (f : β → Except PyExc γ) (h : α → β) :
    ∀ l : List α, mapE f (l.map h) = mapE (fun a => f (h a)) l := by
  intro l
  induction l with
  | nil => rfl
  | cons a as ih => simp only [List.map_cons, mapE, ih]

theorem zipWith_map_same {α β γ δ : Type} (f : β → γ → δ) (u : α → β) (v : α → γ) :
    ∀ l : List α, List.zipWith f (l.map u) (l.map v) = l.map (fun a => f (u a) (v a)) := by
  intro l
  induction l with
  | nil => rfl
  | cons a as ih => simp only [List.map_cons, List.zipWith_cons_cons, ih]

theorem splitNl_ne_nil : ∀ cs : List Char, splitNl cs ≠ [] := by
  intro cs
  induction cs with
  | nil => simp [splitNl]
  | cons c cs ih =>
    simp only [splitNl]
    by_cases hc : c = '\n'
    · simp [hc]
    · simp only [hc, if_false]
      cases hs : splitNl cs with
      | nil => simp
      | cons r rs => simp

theorem splitNl_length : ∀ cs : List Char, (splitNl cs).length = countNlL cs + 1 := by
  intro cs
  induction cs with
  | nil => rfl
  | cons c cs ih =>
    simp only [splitNl, countNlL]
    by_cases hc : c = '\n'
    · simp [hc, ih]; omega
    · simp only [hc, if_false]
      cases hs : splitNl cs with
      | nil => exact absurd hs (splitNl_ne_nil cs)
      | cons r rs =>
        simp only [List.length_cons]
        rw [hs] at ih
        simp only [List.length_cons] at ih
        omega

theorem classify_length : ∀ l : List (Except PyExc ScoreRecord),
    (classify l).1.length + (classify l).2.length = l.length := by
  intro l
  induction l with
  | nil => rfl
  | cons o rest ih =>
    cases o with
    | ok v => simp only [classify, classifyItem, List.length_cons]; omega
    | error e =>
      cases e with
      | httpException c d => simp only [classify, classifyItem, List.length_cons]; omega
      | valueError m => simp only [classify, classifyItem, List.length_cons]; omega
      | jsonDecodeError m => simp only [classify, classifyItem, List.length_cons]; omega
      | backendError m => simp only [classify, classifyItem, List.length_cons]; omega
      | keyError k => simp only [classify, classifyItem, List.length_cons]; omega
      | typeError m => simp only [classify, classifyItem, List.length_cons]; omega

theorem classify_fst_structured : ∀ l : List (Except PyExc ScoreRecord),
    (∀ o ∈ l, isStructured o = true) →
    (classify l).1 = (successRecords l).map Collected.record := by
  intro l
  induction l with
  | nil => intro _; rfl
  | cons o rest ih =>
    intro h
    have hrest := ih (fun x hx => h x (List.mem_cons_of_mem _ hx))
    have ho := h o (List.mem_cons_self _ _)
    cases o with
    | ok v =>
      simp only [classify, classifyItem, hrest, successRecords,
        List.filterMap_cons, List.map_cons]
    | error e =>
      cases e with
      | httpException c d =>
        simp only [classify, classifyItem, hrest, successRecords,
          List.filterMap_cons]
      | valueError m => simp [isStructured] at ho
      | jsonDecodeError m => simp [isStructured] at ho
      | backendError m => simp [isStructured] at ho
      | keyError k => simp [isStructured] at ho
      | typeError m => simp [isStructured] at ho

theorem classify_snd_structured : ∀ l : List (Except PyExc ScoreRecord),
    (∀ o ∈ l, isStructured o = true) →
    (classify l).2 = httpDetails l := by
  intro l
  induction l with
  | nil => intro _; rfl
  | cons o rest ih =>
    intro h
    have hrest := ih (fun x hx => h x (List.mem_cons_of_mem _ hx))
    have ho := h o (List.mem_cons_self _ _)
    cases o with
    | ok v =>
      simp only [classify, classifyItem, hrest, httpDetails, List.filterMap_cons]
    | error e =>
      cases e with
      | httpException c d =>
        simp only [classify, classifyItem, hrest, httpDetails, List.filterMap_cons]
      | valueError m => simp [isStructured] at ho
      | jsonDecodeError m => simp [isStructured] at ho
      | backendError m => simp [isStructured] at ho
      | keyError k => simp [isStructured] at ho
      | typeError m => simp [isStructured] at ho

theorem recordsOf_map_record : ∀ l : List ScoreRecord,
    recordsOf (l.map Collected.record) = some l := by
  intro l
  induction l with
  | nil => rfl
  | cons r rest ih => simp [recordsOf, ih]

theorem toRow_rename (colmap : String → String) (r : ScoreRecord)
    (hname : colmap "Candidate Name" = "Candidate Name") :
    rowRename colmap r.toRow
      = ("Candidate Name", Cell.str r.candidateName) :: renScores colmap r := by
  simp [rowRename, ScoreRecord.toRow, renScores, List.map_map, hname, Function.comp]

theorem rowSum_renScores (colmap : String → String) (r : ScoreRecord) :
    rowSum (renScores colmap r) = .ok (scoreSum r) := by
  simp only [rowSum, renScores]
  rw [if_pos]
  · rw [List.foldl_map]
    rfl
  · simp only [List.all_eq_true, List.mem_map]
    rintro a ⟨p, hp, rfl⟩
    rfl

theorem generate_excel_spec (shorten : List String → String → String)
    (recs : List ScoreRecord) (hne : recs ≠ [])
    (hname : batchColmap shorten recs "Candidate Name" = "Candidate Name")
    (hnocol : ∀ r ∈ recs, ∀ p ∈ r.scores,
      batchColmap shorten recs p.1 ≠ "Candidate Name") :
    generate_excel shorten recs
      = .ok (recs.map (specRow (batchColmap shorten recs))) := by
  simp only [batchColmap] at hname hnocol ⊢
  set cm := shorten (dfColumns (recs.map ScoreRecord.toRow)) with hcm
  have hdf2 : (recs.map ScoreRecord.toRow).map (rowRename cm)
      = recs.map (fun r =>
          ("Candidate Name", Cell.str r.candidateName) :: renScores cm r) := by
    rw [List.map_map]
    apply List.map_congr_left
    intro r _
    exact toRow_rename cm r hname
  have hmem : "Candidate Name"
      ∈ dfColumns ((recs.map ScoreRecord.toRow).map (rowRename cm)) := by
    rw [hdf2]
    obtain ⟨r0, rest, hrec⟩ := List.exists_cons_of_ne_nil hne
    subst hrec
    simp [dfColumns, catKeys, List.mem_dedup]
  have hdropped : ((recs.map ScoreRecord.toRow).map (rowRename cm)).map
        (fun row => row.filter (fun p => !(p.1 == "Candidate Name")))
      = recs.map (renScores cm) := by
    rw [hdf2, List.map_map]
    apply List.map_congr_left
    intro r hr
    show (("Candidate Name", Cell.str r.candidateName)
        :: renScores cm r).filter (fun p => !(p.1 == "Candidate Name"))
      = renScores cm r
    rw [List.filter_cons]
    simp only [beq_self_eq_true, Bool.not_true, if_false]
    apply List.filter_eq_self.mpr
    intro q hq
    obtain ⟨p, hp, hpq⟩ := List.mem_map.mp hq
    have hne2 := hnocol r hr p hp
    subst hpq
    simp [hne2]
  have hdrop : dfDropCol "Candidate Name"
        ((recs.map ScoreRecord.toRow).map (rowRename cm))
      = .ok (recs.map (renScores cm)) := by
    simp only [dfDropCol, if_pos hmem, hdropped]
  have hsums : mapE rowSum (recs.map (renScores cm)) = .ok (recs.map scoreSum) := by
    rw [mapE_map]
    exact mapE_ok _ _ recs (fun r _ => rowSum_renScores cm r)
  simp only [generate_excel, hdrop, hsums]
  rw [hdf2, zipWith_map_same]
  apply congrArg
  apply List.map_congr_left
  intro r _
  simp [specRow]

theorem rank_rows_spec (shorten : List String → String → String)
    (jp : String → Except String ScoreRecord) (req : String) (resumes : List Resume)
    (hstruct : ∀ o ∈ pipelineOuts jp req resumes, isStructured o = true)
    (hne : successRecords (pipelineOuts jp req resumes) ≠ [])
    (hname : batchColmap shorten (successRecords (pipelineOuts jp req resumes))
      "Candidate Name" = "Candidate Name")
    (hnocol : ∀ r ∈ successRecords (pipelineOuts jp req resumes), ∀ p ∈ r.scores,
      batchColmap shorten (successRecords (pipelineOuts jp req resumes)) p.1
        ≠ "Candidate Name") :
    routes_rank_resumes shorten jp req resumes
      = .ok ((successRecords (pipelineOuts jp req resumes)).map
          (specRow (batchColmap shorten
            (successRecords (pipelineOuts jp req resumes))))) := by
  have hfst := classify_fst_structured (pipelineOuts jp req resumes) hstruct
  simp only [routes_rank_resumes, hfst, recordsOf_map_record]
  exact generate_excel_spec shorten _ hne hname hnocol

/- ---------------------------------------------------------------------
Claim theorems.
--------------------------------------------------------------------- -/

/-- C1: for every batch in which K pipelines produce a `ScoreRecord` and the
other pipelines fail with the system's structured failures
(`HTTPException`s), with K ≥ 1, the generated spreadsheet has exactly K
rows, one per succeeding resume, and each row's `Total Score` cell equals
the sum of that row's numeric requirement scores (every column except
`Candidate Name`).  The label map returned by the shortener backend is
assumed to be a genuine relabelling: it keeps `Candidate Name` fixed and
maps no requirement label onto `Candidate Name` (otherwise
`df.drop('Candidate Name')` would behave differently). -/
theorem c1_report_rows (shorten : List String → String → String)
    (jp : String → Except String ScoreRecord) (req : String) (resumes : List Resume)
    (hstruct : ∀ o ∈ pipelineOuts jp req resumes, isStructured o = true)
    (hK : 1 ≤ (successRecords (pipelineOuts jp req resumes)).length)
    (hname : batchColmap shorten (successRecords (pipelineOuts jp req resumes))
      "Candidate Name" = "Candidate Name")
    (hnocol : ∀ r ∈ successRecords (pipelineOuts jp req resumes), ∀ p ∈ r.scores,
      batchColmap shorten (successRecords (pipelineOuts jp req resumes)) p.1
        ≠ "Candidate Name") :
    ∃ rows : List Row,
      routes_rank_resumes shorten jp req resumes = .ok rows
      ∧ rows.length = (successRecords (pipelineOuts jp req resumes)).length
      ∧ rows = (successRecords (pipelineOuts jp req resumes)).map
          (specRow (batchColmap shorten (successRecords (pipelineOuts jp req resumes))))
      ∧ ∀ r ∈ successRecords (pipelineOuts jp req resumes),
          (specRow (batchColmap shorten (successRecords (pipelineOuts jp req resumes)))
              r).getLast?
            = some ("Total Score", Cell.int (scoreSum r)) := by
  have hne : successRecords (pipelineOuts jp req resumes) ≠ [] := by
    intro hnil
    rw [hnil] at hK
    simp at hK
  refine ⟨_, rank_rows_spec shorten jp req resumes hstruct hne hname hnocol,
    List.length_map _ _, rfl, ?_⟩
  intro r _
  show (("Candidate Name", Cell.str r.candidateName)
      :: (renScores _ r ++ [("Total Score", Cell.int (scoreSum r))])).getLast? = _
  rw [← List.cons_append, List.getLast?_concat]

/-- C1 witness: a single successfully scored resume yields a one-row sheet
whose `Total Score` is the sum of its two requirement scores. -/
theorem c1_report_rows_witness :
    ((∀ o ∈ pipelineOuts wjp "req" [wresume], isStructured o = true)
      ∧ 1 ≤ (successRecords (pipelineOuts wjp "req" [wresume])).length)
    ∧ ∃ rows : List Row,
        routes_rank_resumes wshorten wjp "req" [wresume] = .ok rows
        ∧ rows.length = (successRecords (pipelineOuts wjp "req" [wresume])).length
        ∧ rows = (successRecords (pipelineOuts wjp "req" [wresume])).map
            (specRow (batchColmap wshorten
              (successRecords (pipelineOuts wjp "req" [wresume]))))
        ∧ ∀ r ∈ successRecords (pipelineOuts wjp "req" [wresume]),
            (specRow (batchColmap wshorten
                (successRecords (pipelineOuts wjp "req" [wresume]))) r).getLast?
              = some ("Total Score", Cell.int (scoreSum r)) :=
  ⟨⟨by decide, by decide⟩,
    c1_report_rows wshorten wjp "req" [wresume] (by decide) (by decide)
      (by decide) (by decide)⟩

/-- C2 (code bug): with zero successfully processed resumes neither handler
returns `HTTPException(400, "No resumes processed successfully.")`.  In
`app.py` that check sits after `df.drop('Candidate Name', axis=1)`, which
raises `KeyError('Candidate Name')` on the empty frame first; in
`routes.py` the check does not exist and the same `KeyError` escapes from
`generate_excel`.  Both evaluations use a batch consisting of one
`text/plain` upload (skipped by `app.py`, failed with the 422 dict by the
modular pipeline), so K = 0. -/
theorem c2_zero_success_keyerror :
    app_rank_resumes wjp [wappResumeTxt] = .error (.keyError "Candidate Name")
    ∧ routes_rank_resumes wshorten wjp "req" [wresumeTxt]
        = .error (.keyError "Candidate Name")
    ∧ app_rank_resumes wjp [wappResumeTxt]
        ≠ .error (.httpException 400 "No resumes processed successfully.")
    ∧ routes_rank_resumes wshorten wjp "req" [wresumeTxt]
        ≠ .error (.httpException 400 "No resumes processed successfully.") := by
  exact ⟨by decide, by decide, by decide, by decide⟩

/-- C3 counterexample: a pipeline whose scoring backend call raises is NOT
converted to a structured failure at the component boundary
(`models.rank_resumes` has no `try`/`except`), and the orchestrator's
`isinstance(res, HTTPException)` test places the raw exception into
`final_results` — the success set — while the failure set stays empty.
This falsifies both "converted into a structured failure value before
reaching the orchestrator" and "no faulty outcome enters the success
set". -/
theorem c3_counterexample :
    classify (pipelineOuts wjp "req" [wresumeFail])
      = ([Collected.exn (.backendError "backend unavailable")], []) := by
  decide

/-- C3 (amended): pipeline outcomes that ARE structured — parsed records and
`HTTPException`s — are classified correctly: records to the success set (in
order), `HTTPException` details to the failure set, no outcome lost (the
batch is never aborted: success count plus failure count equals the number
of uploads); and a document-extraction fault is indeed converted to an
`HTTPException` at the `process_resume` boundary.  What the original claim
adds — that a raw AI-backend exception is also caught — is false, see the
counterexample. -/
theorem c3_structured_fanin (jp : String → Except String ScoreRecord)
    (req : String) (resumes : List Resume)
    (hstruct : ∀ o ∈ pipelineOuts jp req resumes, isStructured o = true) :
    (classify (pipelineOuts jp req resumes)).1
        = (successRecords (pipelineOuts jp req resumes)).map Collected.record
    ∧ (classify (pipelineOuts jp req resumes)).2
        = httpDetails (pipelineOuts jp req resumes)
    ∧ (classify (pipelineOuts jp req resumes)).1.length
        + (classify (pipelineOuts jp req resumes)).2.length = resumes.length
    ∧ ∀ (r : Resume) (e : ErrDict), DocProcessor.process r.doc = .ok (.err e) →
        process_resume jp req r = .error (.httpException e.status_code e.error) := by
  refine ⟨classify_fst_structured _ hstruct, classify_snd_structured _ hstruct, ?_, ?_⟩
  · rw [classify_length]
    simp [pipelineOuts]
  · intro r e he
    simp [process_resume, he]

/-- C3 witness: one structured batch, classified as stated; the
document-extraction fault of a `text/plain` upload is converted to the 422
`HTTPException`. -/
theorem c3_structured_fanin_witness :
    (∀ o ∈ pipelineOuts wjp "req" [wresume, wresumeTxt], isStructured o = true)
    ∧ ((classify (pipelineOuts wjp "req" [wresume, wresumeTxt])).1
        = (successRecords (pipelineOuts wjp "req" [wresume, wresumeTxt])).map
            Collected.record
      ∧ (classify (pipelineOuts wjp "req" [wresume, wresumeTxt])).2
          = httpDetails (pipelineOuts wjp "req" [wresume, wresumeTxt])
      ∧ (classify (pipelineOuts wjp "req" [wresume, wresumeTxt])).1.length
          + (classify (pipelineOuts wjp "req" [wresume, wresumeTxt])).2.length
          = [wresume, wresumeTxt].length
      ∧ ∀ (r : Resume) (e : ErrDict), DocProcessor.process r.doc = .ok (.err e) →
          process_resume wjp "req" r
            = .error (.httpException e.status_code e.error)) :=
  ⟨by decide, c3_structured_fanin wjp "req" [wresume, wresumeTxt] (by decide)⟩

/-- C4 counterexample: a 5 MB + 1 byte PDF upload makes `DocProcessor`
raise the bare `ValueError("File size exceeds 5MB limit")` — an unhandled,
status-code-free exception, not a structured 400 failure (neither with the
claimed message nor with the code's message).  The parser is indeed never
invoked (second component `false`). -/
theorem c4_counterexample :
    DocProcessor.processT bigPdfDoc
      = (.error (.valueError "File size exceeds 5MB limit"), false)
    ∧ (DocProcessor.processT bigPdfDoc).1 ≠ .ok (.err ⟨400, "File size exceeds limit"⟩)
    ∧ (DocProcessor.processT bigPdfDoc).1
        ≠ .ok (.err ⟨400, "File size exceeds 5MB limit"⟩)
    ∧ (DocProcessor.processT bigPdfDoc).1
        ≠ .error (.httpException 400 "File size exceeds limit") := by
  exact ⟨by decide, by decide, by decide, by decide⟩

/-- C4 (amended): for every payload over 5 MB the document extractor raises
`ValueError("File size exceeds 5MB limit")` — an unstructured exception
with no HTTP status — and never invokes the PDF/DOCX parsing library. -/
theorem c4_oversize_valueerror (f : UploadedDoc) (h : 5 * 1024 * 1024 < f.size) :
    DocProcessor.processT f
      = (.error (.valueError "File size exceeds 5MB limit"), false) := by
  simp [DocProcessor.processT, validate_size, h]

/-- C4 witness: the amended statement evaluated at the 5 MB + 1 upload. -/
theorem c4_oversize_valueerror_witness :
    5 * 1024 * 1024 < bigPdfDoc.size
    ∧ DocProcessor.processT bigPdfDoc
        = (.error (.valueError "File size exceeds 5MB limit"), false) :=
  ⟨by decide, c4_oversize_valueerror bigPdfDoc (by decide)⟩

/-- C5 counterexample: when the scoring response is not parseable JSON,
`process_resume` propagates the raw `json.JSONDecodeError` (no handler
wraps the `json.loads(result['response'])` call) instead of any structured
`Failure(500, "Invalid response from scoring backend")` — a message that
appears nowhere in the code. -/
theorem c5_counterexample :
    process_resume wjp "req" wresumeBadJson
      = .error (.jsonDecodeError "Expecting value: line 1 column 1 (char 0)")
    ∧ process_resume wjp "req" wresumeBadJson
        ≠ .error (.httpException 500 "Invalid response from scoring backend") := by
  exact ⟨by decide, by decide⟩

/-- C5 (amended): in the modular pipeline an unparseable scoring response
makes `process_resume` raise the raw `JSONDecodeError`; in the legacy
monolith `score_resume_with_gemini` catches it but — because the inner
`HTTPException(500, "Invalid JSON response from Gemini.")` is re-caught by
the outer `except Exception` — surfaces it as `HTTPException(500,
"Resume scoring error: 500: Invalid JSON response from Gemini.")`.
Neither path produces the claimed message. -/
theorem c5_parse_failure_paths :
    (∀ (jp : String → Except String ScoreRecord) (req : String) (r : Resume)
        (t resp m : String),
      DocProcessor.process r.doc = .ok (.text t) → pyIn "error" t = false →
      models.rank_resumes r.scoreBackend = .ok (.ok resp) → jp resp = .error m →
      process_resume jp req r = .error (.jsonDecodeError m))
    ∧ (∀ (jp : String → Except String ScoreRecord) (text m : String),
      jp (pyRstrip tickSet (pyLstrip jsonFence text)) = .error m →
      score_resume_with_gemini jp (.ok text)
        = .error (.httpException 500
            ("Resume scoring error: "
              ++ strHTTP 500 "Invalid JSON response from Gemini."))) := by
  constructor
  · intro jp req r t resp m h1 h2 h3 h4
    simp [process_resume, h1, h2, h3, h4]
  · intro jp text m h
    simp [score_resume_with_gemini, h]

/-- C5 witness: both amended branches evaluated at the `"not json"`
response (whose fence-stripping leaves `"t json"`, which the `json.loads`
oracle rejects). -/
theorem c5_parse_failure_paths_witness :
    (DocProcessor.process wdoc = .ok (.text "hello world")
      ∧ pyIn "error" "hello world" = false
      ∧ models.rank_resumes (Except.ok "not json") = .ok (.ok "t json")
      ∧ wjp "t json" = .error "Expecting value: line 1 column 1 (char 0)")
    ∧ process_resume wjp "req" wresumeBadJson
        = .error (.jsonDecodeError "Expecting value: line 1 column 1 (char 0)")
    ∧ score_resume_with_gemini wjp (.ok "not json")
        = .error (.httpException 500
            ("Resume scoring error: "
              ++ strHTTP 500 "Invalid JSON response from Gemini.")) :=
  ⟨⟨by decide, by decide, by decide, by decide⟩,
    (c5_parse_failure_paths).1 wjp "req" wresumeBadJson "hello world" "t json"
      "Expecting value: line 1 column 1 (char 0)"
      (by decide) (by decide) (by decide) (by decide),
    (c5_parse_failure_paths).2 wjp "not json"
      "Expecting value: line 1 column 1 (char 0)" (by decide)⟩

/-- C6: whenever the backend answers the `INVALID_INPUT` sentinel (its
stripped response text equals the sentinel), `models.extract_criteria`
returns exactly the 400 "Not a valid Job Description" error dict — and so
no requirement list at all — and the extraction endpoint converts it to
`HTTPException(400, "Not a valid Job Description")`. -/
theorem c6_invalid_jd (t : String) (h : pyStrip t = "INVALID_INPUT")
    (f : UploadedDoc) (s : String)
    (hx : DocProcessor.process f = .ok (.text s)) (hs : pyIn "error" s = false) :
    models.extract_criteria (.ok t) = .err ⟨400, "Not a valid Job Description"⟩
    ∧ routes_extract_criteria (.ok t) f
        = .error (.httpException 400 "Not a valid Job Description") := by
  constructor
  · simp [models.extract_criteria, h]
  · simp [routes_extract_criteria, hx, hs, models.extract_criteria, h]

/-- C6 witness: a sentinel response with surrounding whitespace, arriving
for a well-formed PDF upload. -/
theorem c6_invalid_jd_witness :
    (pyStrip " INVALID_INPUT\n" = "INVALID_INPUT"
      ∧ DocProcessor.process wdoc = .ok (.text "hello world")
      ∧ pyIn "error" "hello world" = false)
    ∧ models.extract_criteria (.ok " INVALID_INPUT\n")
        = .err ⟨400, "Not a valid Job Description"⟩
    ∧ routes_extract_criteria (.ok " INVALID_INPUT\n") wdoc
        = .error (.httpException 400 "Not a valid Job Description") :=
  ⟨⟨by decide, by decide, by decide⟩,
    (c6_invalid_jd " INVALID_INPUT\n" (by decide) wdoc "hello world"
      (by decide) (by decide)).1,
    (c6_invalid_jd " INVALID_INPUT\n" (by decide) wdoc "hello world"
      (by decide) (by decide)).2⟩

/-- C7 counterexample: an oversized upload with an unsupported content type
does NOT get the 422 "Unsupported file type" dict — the size check in
`BaseDoc.__init__` raises its `ValueError` before the type dispatch. -/
theorem c7_counterexample :
    DocProcessor.process bigTxtDoc = .error (.valueError "File size exceeds 5MB limit")
    ∧ DocProcessor.process bigTxtDoc
        ≠ .ok (.err ⟨422, "Unsupported file type. Upload PDF or DOCX."⟩) := by
  exact ⟨by decide, by decide⟩

/-- C7 (amended): for every upload WITHIN the 5 MB size limit whose
declared content type is neither PDF nor DOCX, `DocProcessor.process`
returns the structured 422 "Unsupported file type. Upload PDF or DOCX."
dict and never invokes a parsing library. -/
theorem c7_unsupported_422 (f : UploadedDoc) (hsize : f.size ≤ 5 * 1024 * 1024)
    (h1 : f.content_type ≠ ctPdf) (h2 : f.content_type ≠ ctDocx) :
    DocProcessor.processT f
      = (.ok (.err ⟨422, "Unsupported file type. Upload PDF or DOCX."⟩), false) := by
  have hv : ¬ (f.size > 5 * 1024 * 1024) := by omega
  simp [DocProcessor.processT, validate_size, hv, h1, h2]

/-- C7 witness: the amended statement at a small `text/plain` upload. -/
theorem c7_unsupported_422_witness :
    (wdocTxt.size ≤ 5 * 1024 * 1024 ∧ wdocTxt.content_type ≠ ctPdf
      ∧ wdocTxt.content_type ≠ ctDocx)
    ∧ DocProcessor.processT wdocTxt
        = (.ok (.err ⟨422, "Unsupported file type. Upload PDF or DOCX."⟩), false) :=
  ⟨⟨by decide, by decide, by decide⟩,
    c7_unsupported_422 wdocTxt (by decide) (by decide) (by decide)⟩

/-- C8: a zero-page PDF yields the 422 "PDF contains no readable text"
dict, an unparseable PDF structure (`PdfReadError`) yields the 422
"Invalid PDF structure - unable to read file" dict, and the two messages
are distinct, so the two causes stay distinguishable to the caller (the
dict is returned as-is and its fields become the `HTTPException`
status/detail upstream). -/
theorem c8_pdf_failure_modes :
    PdfDoc.extract_text (.pages []) = .err ⟨422, "PDF contains no readable text"⟩
    ∧ PdfDoc.extract_text .readError
        = .err ⟨422, "Invalid PDF structure - unable to read file"⟩
    ∧ ("PDF contains no readable text" : String)
        ≠ "Invalid PDF structure - unable to read file" := by
  exact ⟨by decide, by decide, by decide⟩

/-- C9 counterexample: for the valid backend response `"a\n"`, the
extractor returns `["a"]`, but the response split into one requirement per
line is `["a", ""]` — the blank final line of the response is NOT included,
because the code strips the whole response before splitting. -/
theorem c9_counterexample :
    models.extract_criteria (.ok "a\n") = .ok ["a"]
    ∧ pySplitNewline "a\n" = ["a", ""]
    ∧ (["a"] : List String) ≠ ["a", ""] := by
  exact ⟨by decide, by decide, by decide⟩

/-- C9 (amended): for every valid (non-sentinel) response the requirement
list is exactly the WHITESPACE-STRIPPED response split at newlines; no line
of the stripped text is filtered (the list has exactly one entry per
newline plus one, so interior blank lines survive verbatim), and whenever
the response carries no leading/trailing whitespace the original claim's
equation holds as stated. -/
theorem c9_split_semantics (t : String) (h : pyStrip t ≠ "INVALID_INPUT") :
    models.extract_criteria (.ok t) = .ok (pySplitNewline (pyStrip t))
    ∧ (pySplitNewline (pyStrip t)).length = countNl (pyStrip t) + 1
    ∧ (pyStrip t = t → models.extract_criteria (.ok t) = .ok (pySplitNewline t)) := by
  refine ⟨?_, ?_, ?_⟩
  · simp [models.extract_criteria, h]
  · simpa [pySplitNewline, countNl] using splitNl_length (pyStrip t).data
  · intro he
    have h2 : ¬ t = "INVALID_INPUT" := by
      intro hb
      exact h (he.trans hb)
    simp [models.extract_criteria, he, h2]

/-- C9 witness: the amended statement at `"a\n\nb"`, a stripped response
with an interior blank line (which IS kept verbatim). -/
theorem c9_split_semantics_witness :
    pyStrip "a\n\nb" ≠ "INVALID_INPUT"
    ∧ (models.extract_criteria (.ok "a\n\nb") = .ok (pySplitNewline (pyStrip "a\n\nb"))
      ∧ (pySplitNewline (pyStrip "a\n\nb")).length = countNl (pyStrip "a\n\nb") + 1
      ∧ (pyStrip "a\n\nb" = "a\n\nb" →
          models.extract_criteria (.ok "a\n\nb") = .ok (pySplitNewline "a\n\nb"))) :=
  ⟨by decide, c9_split_semantics "a\n\nb" (by decide)⟩

/-- C10: under the same structured-failure and relabelling assumptions as
C1, the k-th row of the sheet is exactly the row of the k-th succeeding
resume, where the successes are collected from the per-resume outcomes in
upload order (`asyncio.gather` returns outcomes in task-submission order
and the fan-in loop preserves it). -/
theorem c10_row_order (shorten : List String → String → String)
    (jp : String → Except String ScoreRecord) (req : String) (resumes : List Resume)
    (hstruct : ∀ o ∈ pipelineOuts jp req resumes, isStructured o = true)
    (hne : successRecords (pipelineOuts jp req resumes) ≠ [])
    (hname : batchColmap shorten (successRecords (pipelineOuts jp req resumes))
      "Candidate Name" = "Candidate Name")
    (hnocol : ∀ r ∈ successRecords (pipelineOuts jp req resumes), ∀ p ∈ r.scores,
      batchColmap shorten (successRecords (pipelineOuts jp req resumes)) p.1
        ≠ "Candidate Name") :
    ∃ rows : List Row,
      routes_rank_resumes shorten jp req resumes = .ok rows
      ∧ ∀ k : Nat,
          rows[k]? = ((successRecords (pipelineOuts jp req resumes))[k]?).map
            (specRow (batchColmap shorten
              (successRecords (pipelineOuts jp req resumes)))) := by
  refine ⟨_, rank_rows_spec shorten jp req resumes hstruct hne hname hnocol, ?_⟩
  intro k
  exact List.getElem?_map _ _ _

/-- C10 witness: a two-resume batch whose first pipeline fails (unsupported
type) and whose second succeeds; row 0 of the sheet is the succeeding
resume's row and there is no row 1. -/
theorem c10_row_order_witness :
    ((∀ o ∈ pipelineOuts wjp "req" [wresumeTxt, wresume], isStructured o = true)
      ∧ successRecords (pipelineOuts wjp "req" [wresumeTxt, wresume]) ≠ [])
    ∧ ∃ rows : List Row,
        routes_rank_resumes wshorten wjp "req" [wresumeTxt, wresume] = .ok rows
        ∧ ∀ k : Nat,
            rows[k]? = ((successRecords (pipelineOuts wjp "req" [wresumeTxt, wresume]))[k]?).map
              (specRow (batchColmap wshorten
                (successRecords (pipelineOuts wjp "req" [wresumeTxt, wresume])))) :=
  ⟨⟨by decide, by decide⟩,
    c10_row_order wshorten wjp "req" [wresumeTxt, wresume] (by decide) (by decide)
      (by decide) (by decide)⟩
